import Mathlib

/-!
Shallow embedding of the room-join / chat-session workflow of this
repository (a React front-end over a managed backend).  Backend tables are
modelled as Lean lists of row structures; the Supabase query combinators
(`eq` filters, `order`, `limit`, `single`) are modelled by `List.filter`,
insertion sort on the relevant timestamp column, `List.take`, and
`List.find?`.  Timestamps are modelled as `Nat` (ISO-8601 strings compare
chronologically, so the `Nat` order is faithful).  Fallible backend calls
take an explicit `Bool` success flag or return `Option`.
-/

deriving instance DecidableEq for Except

/-- JavaScript's notion of whitespace as used by `String.prototype.trim` and
the leading-whitespace skipping of `parseInt`: ASCII whitespace controls,
space, NBSP, BOM and the Unicode space separators. -/
def isJsWhitespace (c : Char) : Bool :=
  c.toNat ∈ [0x9, 0xA, 0xB, 0xC, 0xD, 0x20, 0xA0, 0x1680,
    0x2000, 0x2001, 0x2002, 0x2003, 0x2004, 0x2005, 0x2006, 0x2007,
    0x2008, 0x2009, 0x200A, 0x2028, 0x2029, 0x202F, 0x205F, 0x3000, 0xFEFF]

/-- Model of JavaScript `String.prototype.trim`: strip leading and trailing
JS whitespace. -/
def jsTrim (s : String) : String :=
  ⟨((s.data.dropWhile isJsWhitespace).reverse.dropWhile isJsWhitespace).reverse⟩

/-- Model of JavaScript `String.prototype.toUpperCase` on the ASCII range
(room codes are server-issued ASCII alphanumerics). -/
def jsToUpperChar (c : Char) : Char :=
  if 'a' ≤ c ∧ c ≤ 'z' then Char.ofNat (c.toNat - 32) else c

/-- See `jsToUpperChar`. -/
def jsToUpper (s : String) : String := ⟨s.data.map jsToUpperChar⟩

/-- A row of the `messages` table as selected by the chat screen
(`id, content, user_id, created_at` plus the `room_id` it is filtered by). -/
structure MessageRow where
  id : String
  content : String
  user_id : String
  room_id : String
  created_at : Nat
  deriving DecidableEq, Repr

/-- A row of the `profiles` table as selected for message enrichment
(`display_name, avatar_url`, both nullable, keyed by `user_id`). -/
structure ProfileRow where
  user_id : String
  display_name : Option String
  avatar_url : Option String
  deriving DecidableEq, Repr

/-- The profile sub-object attached to each transcript message. -/
structure ProfileInfo where
  display_name : Option String
  avatar_url : Option String
  deriving DecidableEq, Repr

/-- A transcript entry: the selected message columns plus the enrichment. -/
structure EnrichedMessage where
  id : String
  content : String
  user_id : String
  created_at : Nat
  profiles : ProfileInfo
  deriving DecidableEq, Repr

/-- A row of the `room_participants` table (the columns this workflow reads
and writes; `id` and `joined_at` are server-assigned defaults never read by
the join/count logic). -/
structure ParticipantRow where
  room_id : String
  user_id : String
  is_active : Bool
  deriving DecidableEq, Repr

namespace Chat

/-- Per-message profile fetch of `loadMessages`: the `.single()` query on
`profiles` keyed by the author, with the source's
`profile || { display_name: 'Anonymous', avatar_url: null }` fallback when
no profile row exists. -/
def enrichMessage (profiles : List ProfileRow) (m : MessageRow) : EnrichedMessage :=
  { id := m.id, content := m.content, user_id := m.user_id, created_at := m.created_at,
    profiles :=
      match profiles.find? (fun p => p.user_id = m.user_id) with
      | some p => { display_name := p.display_name, avatar_url := p.avatar_url }
      | none => { display_name := some "Anonymous", avatar_url := none } }

/-- Ascending creation-time order used by the `messages` query
(`order('created_at', { ascending: true })`). -/
def createdAtLE (a b : MessageRow) : Prop := a.created_at ≤ b.created_at

instance : DecidableRel createdAtLE := fun a b => Nat.decLe a.created_at b.created_at

/-- `loadMessages` from the chat screen: select the room's messages ordered
by `created_at` ascending with `limit(100)`, then enrich each with its
author's profile. -/
def loadMessages (messagesTable : List MessageRow) (profiles : List ProfileRow)
    (roomId : String) : List EnrichedMessage :=
  ((((messagesTable.filter (fun m => m.room_id = roomId)).insertionSort createdAtLE).take
    100).map (enrichMessage profiles))

end Chat

/-- A persisted message log of 101 rows for room `"r"`, with creation times
0..100, whose author has no profile row. -/
def log101 : List MessageRow :=
  (List.range 101).map (fun i =>
    { id := "", content := "", user_id := "u", room_id := "r", created_at := i })

set_option maxRecDepth 4000 in
/-- C1: the claim as stated is false: with 101 persisted messages the
transcript is NOT the most recent 100 in ascending order (it is the oldest
100: ascending order with `limit(100)` keeps the head of the log, so the
element with creation time 0 is present and the one with creation time 100
is not). -/
theorem loadMessages_not_most_recent :
    Chat.loadMessages log101 [] "r" ≠
      (log101.drop (log101.length - 100)).map (Chat.enrichMessage []) := by
  decide

/-- C1 (amended): for a room whose persisted log is M1..Mn ordered by
creation time, the transcript equals the EARLIEST min(n, 100) messages in
creation-time-ascending order, each enriched with the author's profile,
the enrichment defaulting to display name "Anonymous" when the author has
no profile row. -/
theorem loadMessages_transcript (messagesTable : List MessageRow)
    (profiles : List ProfileRow) (roomId : String)
    (hsorted : (messagesTable.filter (fun m => m.room_id = roomId)).Sorted Chat.createdAtLE) :
    Chat.loadMessages messagesTable profiles roomId =
      ((messagesTable.filter (fun m => m.room_id = roomId)).take 100).map
        (Chat.enrichMessage profiles) ∧
    ∀ m : MessageRow, profiles.find? (fun p => p.user_id = m.user_id) = none →
      (Chat.enrichMessage profiles m).profiles.display_name = some "Anonymous" := by
  constructor
  · unfold Chat.loadMessages
    rw [List.Sorted.insertionSort_eq hsorted]
  · intro m hm
    unfold Chat.enrichMessage
    rw [hm]

/-- C1 witness: a concrete two-message sorted log with no profile rows; the
transcript keeps both messages in order and the enrichment defaults to
"Anonymous". -/
theorem loadMessages_transcript_witness :
    Chat.loadMessages
        [{ id := "a", content := "hi", user_id := "u", room_id := "r", created_at := 1 },
         { id := "b", content := "yo", user_id := "v", room_id := "r", created_at := 2 }]
        [] "r" =
      (([{ id := "a", content := "hi", user_id := "u", room_id := "r", created_at := 1 },
          { id := "b", content := "yo", user_id := "v", room_id := "r", created_at := 2 }] :
          List MessageRow).take 100).map (Chat.enrichMessage []) :=
  (loadMessages_transcript
    [{ id := "a", content := "hi", user_id := "u", room_id := "r", created_at := 1 },
     { id := "b", content := "yo", user_id := "v", room_id := "r", created_at := 2 }]
    [] "r" (by decide)).1

namespace Dashboard

/-- A row of the `chat_rooms` table (the columns the join/create workflow
reads; `created_by`/`description`/`updated_at` are never consulted when
resolving a join). -/
structure RoomRow where
  id : String
  name : String
  room_code : String
  is_active : Bool
  is_password_protected : Bool
  password_hash : Option String
  max_participants : Int
  created_at : Nat
  deriving DecidableEq, Repr

/-- Join error taxonomy of the dashboard `joinRoom` handler (each is a
destructive toast followed by an early return in the source). -/
inductive JoinError where
  | codeRequired
  | notFound
  | passwordRequired
  | roomFull
  deriving DecidableEq, Repr

/-- The room lookup of `joinRoom`: `.eq('room_code', code.toUpperCase())`
restricted to `is_active` rows. -/
def lookupRoom (rooms : List RoomRow) (code : String) : Option RoomRow :=
  rooms.find? (fun r => r.room_code = jsToUpper code ∧ r.is_active = true)

/-- The live participant count re-fetched by `joinRoom`: exact count of
`room_participants` rows for the room with `is_active = true`. -/
def activeCount (participants : List ParticipantRow) (roomId : String) : Nat :=
  (participants.filter (fun p => p.room_id = roomId ∧ p.is_active = true)).length

/-- The dashboard `joinRoom` handler (the `resolveJoin` workflow): empty
code check, active-room lookup by uppercased code, password gate (only
presence of a password is checked, never the hash), then the capacity
check `count && count >= room.max_participants` — note the JavaScript
truthiness guard on `count`, which skips the capacity check entirely when
the active count is 0. -/
def joinRoom (rooms : List RoomRow) (participants : List ParticipantRow)
    (joinRoomCode joinRoomPassword : String) : Except JoinError RoomRow :=
  if jsTrim joinRoomCode = "" then .error .codeRequired
  else
    match lookupRoom rooms joinRoomCode with
    | none => .error .notFound
    | some room =>
      if room.is_password_protected = true ∧ joinRoomPassword = "" then
        .error .passwordRequired
      else if activeCount participants room.id ≠ 0 ∧
          (activeCount participants room.id : Int) ≥ room.max_participants then
        .error .roomFull
      else .ok room

/-- Model of JavaScript `parseInt(string)` with no radix argument: skip
leading whitespace, read an optional sign, auto-detect an `0x`/`0X` hex
prefix (radix 16, else 10), then take the longest prefix of digits valid
in that radix; `none` models `NaN` (no valid digit at all). -/
def digitValue (radix : Nat) (c : Char) : Option Nat :=
  let v :=
    if '0' ≤ c ∧ c ≤ '9' then some (c.toNat - '0'.toNat)
    else if 'a' ≤ c ∧ c ≤ 'z' then some (c.toNat - 'a'.toNat + 10)
    else if 'A' ≤ c ∧ c ≤ 'Z' then some (c.toNat - 'A'.toNat + 10)
    else none
  match v with
  | some d => if d < radix then some d else none
  | none => none

/-- Accumulate the longest valid digit prefix, as `parseInt` does. -/
def digitsValue (radix : Nat) : List Char → Nat → Nat
  | c :: cs, acc =>
    match digitValue radix c with
    | some d => digitsValue radix cs (acc * radix + d)
    | none => acc
  | [], acc => acc

/-- See `digitValue`: the full `parseInt(string)` model. -/
def parseJsInt (s : String) : Option Int :=
  let cs := s.data.dropWhile isJsWhitespace
  let signed : Int × List Char :=
    match cs with
    | '-' :: rest => (-1, rest)
    | '+' :: rest => (1, rest)
    | _ => (1, cs)
  let prefixed : Nat × List Char :=
    match signed.2 with
    | '0' :: 'x' :: rest => (16, rest)
    | '0' :: 'X' :: rest => (16, rest)
    | _ => (10, signed.2)
  match prefixed.2 with
  | c :: _ =>
    match digitValue prefixed.1 c with
    | some _ => some (signed.1 * (digitsValue prefixed.1 prefixed.2 0 : Int))
    | none => none
  | [] => none

/-- The max-participants form field handler:
`parseInt(e.target.value) || 50` — `NaN` and `0` both fall back to 50,
every other parsed integer (including 1 and negatives) is kept. -/
def maxParticipantsFromInput (s : String) : Int :=
  match parseJsInt s with
  | none => 50
  | some n => if n = 0 then 50 else n

end Dashboard

/-- C2: on a password-protected active room the join fails with the
password-required error when no password is supplied, and any non-empty
password passes the gate: the outcome is then independent of the password
value (no hash verification), and is never the password-required error. -/
theorem joinRoom_password_gate (rooms : List Dashboard.RoomRow)
    (participants : List ParticipantRow) (code : String) (room : Dashboard.RoomRow)
    (hcode : jsTrim code ≠ "") (hfind : Dashboard.lookupRoom rooms code = some room)
    (hprot : room.is_password_protected = true) :
    Dashboard.joinRoom rooms participants code "" =
      Except.error Dashboard.JoinError.passwordRequired ∧
    ∀ pw : String, pw ≠ "" →
      Dashboard.joinRoom rooms participants code pw ≠
        Except.error Dashboard.JoinError.passwordRequired ∧
      Dashboard.joinRoom rooms participants code pw =
        Dashboard.joinRoom rooms participants code "*" := by
  have hgate : ∀ pw : String, pw ≠ "" →
      Dashboard.joinRoom rooms participants code pw =
        (if Dashboard.activeCount participants room.id ≠ 0 ∧
            (Dashboard.activeCount participants room.id : Int) ≥ room.max_participants then
          Except.error Dashboard.JoinError.roomFull
        else Except.ok room) := by
    intro pw hpw
    unfold Dashboard.joinRoom
    rw [if_neg hcode, hfind]
    exact if_neg (fun h => hpw h.2)
  refine ⟨?_, ?_⟩
  · unfold Dashboard.joinRoom
    rw [if_neg hcode, hfind]
    exact if_pos ⟨hprot, rfl⟩
  · intro pw hpw
    refine ⟨?_, ?_⟩
    · rw [hgate pw hpw]
      split <;> simp
    · rw [hgate pw hpw, hgate "*" (by simp)]

/-- An active, unprotected room whose persisted capacity is -1 (reachable:
typing "-1" in the max-participants field gives `parseInt("-1") || 50 = -1`,
and `createRoom` stores it unchecked). -/
def negCapacityRoom : Dashboard.RoomRow :=
  { id := "r1", name := "n", room_code := "AB12", is_active := true,
    is_password_protected := false, password_hash := none,
    max_participants := -1, created_at := 0 }

/-- C3: the claim as stated is false: with active count M = 0 and capacity
C = -1 we have M ≥ C, so the claim demands the room-full error, but the
JavaScript guard `count && count >= max_participants` is skipped for a
falsy count of 0 and the join succeeds. -/
theorem joinRoom_capacity_claim_false :
    Dashboard.joinRoom [negCapacityRoom] [] "AB12" "" = Except.ok negCapacityRoom ∧
    (Dashboard.activeCount [] negCapacityRoom.id : Int) ≥ negCapacityRoom.max_participants ∧
    Dashboard.maxParticipantsFromInput "-1" = -1 := by
  decide

/-- C3 (amended): once the code lookup and password gate pass, the join
succeeds iff the active count M is 0 or M < C, and fails with the room-full
error iff M ≥ C and M > 0 (the capacity check is skipped entirely for a
falsy count of 0, which only matters for rooms with capacity ≤ 0). -/
theorem joinRoom_capacity_gate (rooms : List Dashboard.RoomRow)
    (participants : List ParticipantRow) (code pw : String) (room : Dashboard.RoomRow)
    (hcode : jsTrim code ≠ "") (hfind : Dashboard.lookupRoom rooms code = some room)
    (hpass : ¬(room.is_password_protected = true ∧ pw = "")) :
    (Dashboard.joinRoom rooms participants code pw = Except.ok room ↔
      Dashboard.activeCount participants room.id = 0 ∨
      (Dashboard.activeCount participants room.id : Int) < room.max_participants) ∧
    (Dashboard.joinRoom rooms participants code pw =
        Except.error Dashboard.JoinError.roomFull ↔
      Dashboard.activeCount participants room.id ≠ 0 ∧
      (Dashboard.activeCount participants room.id : Int) ≥ room.max_participants) := by
  have hred : Dashboard.joinRoom rooms participants code pw =
      (if Dashboard.activeCount participants room.id ≠ 0 ∧
          (Dashboard.activeCount participants room.id : Int) ≥ room.max_participants then
        Except.error Dashboard.JoinError.roomFull
      else Except.ok room) := by
    unfold Dashboard.joinRoom
    rw [if_neg hcode, hfind]
    exact if_neg hpass
  rw [hred]
  by_cases hfull : Dashboard.activeCount participants room.id ≠ 0 ∧
      (Dashboard.activeCount participants room.id : Int) ≥ room.max_participants
  · rw [if_pos hfull]
    refine ⟨?_, ?_⟩
    · simp only [reduceCtorEq, false_iff]
      push_neg
      exact ⟨hfull.1, hfull.2⟩
    · simp [hfull.1, hfull.2]
  · rw [if_neg hfull]
    push_neg at hfull
    refine ⟨?_, ?_⟩
    · constructor
      · intro _
        by_cases h0 : Dashboard.activeCount participants room.id = 0
        · exact Or.inl h0
        · exact Or.inr (hfull h0)
      · intro _
        rfl
    · simp only [reduceCtorEq, false_iff]
      intro h
      exact absurd (hfull h.1) (not_lt.mpr h.2)

/-- A concrete protected active room (hash value irrelevant to the gate). -/
def protectedRoom : Dashboard.RoomRow :=
  { id := "r2", name := "p", room_code := "CD34", is_active := true,
    is_password_protected := true, password_hash := some "deadbeef",
    max_participants := 50, created_at := 0 }

/-- C2 witness: on the concrete protected room, an empty password is
rejected with the password-required error and a non-empty one is not. -/
theorem joinRoom_password_gate_witness :
    Dashboard.joinRoom [protectedRoom] [] "CD34" "" =
      Except.error Dashboard.JoinError.passwordRequired ∧
    Dashboard.joinRoom [protectedRoom] [] "CD34" "letmein" ≠
      Except.error Dashboard.JoinError.passwordRequired :=
  ⟨(joinRoom_password_gate [protectedRoom] [] "CD34" protectedRoom
      (by decide) (by decide) rfl).1,
   ((joinRoom_password_gate [protectedRoom] [] "CD34" protectedRoom
      (by decide) (by decide) rfl).2 "letmein" (by decide)).1⟩

/-- The spec scenario room: "Design Sync", capacity 2, no password. -/
def designRoom : Dashboard.RoomRow :=
  { id := "room-ds", name := "Design Sync", room_code := "AB12", is_active := true,
    is_password_protected := false, password_hash := none,
    max_participants := 2, created_at := 0 }

/-- Active memberships of users A and B in the scenario room. -/
def designParts : List ParticipantRow :=
  [{ room_id := "room-ds", user_id := "A", is_active := true },
   { room_id := "room-ds", user_id := "B", is_active := true }]

/-- C3 witness (the spec scenario): with 2 of 2 seats taken, a further join
resolves to the room-full error. -/
theorem joinRoom_capacity_gate_witness :
    Dashboard.joinRoom [designRoom] designParts "AB12" "" =
      Except.error Dashboard.JoinError.roomFull :=
  (joinRoom_capacity_gate [designRoom] designParts "AB12" "" designRoom
    (by decide) (by decide) (by decide)).2.mpr (by decide)

namespace Dashboard

/-- UTF-8 encoding of one character: the browser `TextEncoder` used by
`hashPassword` before digesting. -/
def utf8Bytes (c : Char) : List Nat :=
  let n := c.toNat
  if n < 0x80 then [n]
  else if n < 0x800 then
    [0xC0 + n / 0x40, 0x80 + n % 0x40]
  else if n < 0x10000 then
    [0xE0 + n / 0x1000, 0x80 + n / 0x40 % 0x40, 0x80 + n % 0x40]
  else
    [0xF0 + n / 0x40000, 0x80 + n / 0x1000 % 0x40, 0x80 + n / 0x40 % 0x40, 0x80 + n % 0x40]

/-- See `utf8Bytes`. -/
def stringUtf8 (s : String) : List Nat := s.data.flatMap utf8Bytes

/-- Reduction modulo 2^32: the implicit word width of the SHA-256 rounds
run by `crypto.subtle.digest('SHA-256', ...)`. -/
def w32 (n : Nat) : Nat := n % 4294967296

/-- Right rotation of a 32-bit word. -/
def rotr32 (x n : Nat) : Nat := x / 2 ^ n + x % 2 ^ n * 2 ^ (32 - n)

/-- Logical right shift of a 32-bit word. -/
def shr32 (x n : Nat) : Nat := x / 2 ^ n

/-- SHA-256 choice function. -/
def ch32 (e f g : Nat) : Nat := (e &&& f) ^^^ ((e ^^^ 0xFFFFFFFF) &&& g)

/-- SHA-256 majority function. -/
def maj32 (a b c : Nat) : Nat := (a &&& b) ^^^ (a &&& c) ^^^ (b &&& c)

/-- SHA-256 big sigma 0. -/
def bsig0 (a : Nat) : Nat := rotr32 a 2 ^^^ rotr32 a 13 ^^^ rotr32 a 22

/-- SHA-256 big sigma 1. -/
def bsig1 (e : Nat) : Nat := rotr32 e 6 ^^^ rotr32 e 11 ^^^ rotr32 e 25

/-- SHA-256 small sigma 0. -/
def ssig0 (w : Nat) : Nat := rotr32 w 7 ^^^ rotr32 w 18 ^^^ shr32 w 3

/-- SHA-256 small sigma 1. -/
def ssig1 (w : Nat) : Nat := rotr32 w 17 ^^^ rotr32 w 19 ^^^ shr32 w 10

/-- The 64 SHA-256 round constants (FIPS 180-4), written in decimal. -/
def sha256K : List Nat :=
  [1116352408, 1899447441, 3049323471, 3921009573, 961987163, 1508970993,
   2453635748, 2870763221, 3624381080, 310598401, 607225278, 1426881987,
   1925078388, 2162078206, 2614888103, 3248222580, 3835390401, 4022224774,
   264347078, 604807628, 770255983, 1249150122, 1555081692, 1996064986,
   2554220882, 2821834349, 2952996808, 3210313671, 3336571891, 3584528711,
   113926993, 338241895, 666307205, 773529912, 1294757372, 1396182291,
   1695183700, 1986661051, 2177026350, 2456956037, 2730485921, 2820302411,
   3259730800, 3345764771, 3516065817, 3600352804, 4094571909, 275423344,
   430227734, 506948616, 659060556, 883997877, 958139571, 1322822218,
   1537002063, 1747873779, 1955562222, 2024104815, 2227730452, 2361852424,
   2428436474, 2756734187, 3204031479, 3329325298]

/-- The eight 32-bit words of SHA-256 state. -/
structure Sha256State where
  h0 : Nat
  h1 : Nat
  h2 : Nat
  h3 : Nat
  h4 : Nat
  h5 : Nat
  h6 : Nat
  h7 : Nat
  deriving DecidableEq, Repr

/-- SHA-256 initial state (FIPS 180-4), written in decimal. -/
def sha256Init : Sha256State :=
  ⟨1779033703, 3144134277, 1013904242, 2773480762,
   1359893119, 2600822924, 528734635, 1541459225⟩

/-- SHA-256 padding: 0x80, zeros to 56 mod 64, then the 64-bit big-endian
bit length. -/
def sha256Pad (msg : List Nat) : List Nat :=
  let len := msg.length
  let zeros := (119 - len % 64) % 64
  let bitLen := len * 8
  msg ++ [0x80] ++ List.replicate zeros 0 ++
    [bitLen / 2 ^ 56 % 256, bitLen / 2 ^ 48 % 256, bitLen / 2 ^ 40 % 256, bitLen / 2 ^ 32 % 256,
     bitLen / 2 ^ 24 % 256, bitLen / 2 ^ 16 % 256, bitLen / 2 ^ 8 % 256, bitLen % 256]

/-- Split into 64-byte chunks (fuel-based so the kernel can evaluate it;
the fuel `l.length` always suffices since every step consumes a byte). -/
def chunks64Go : Nat → List Nat → List (List Nat)
  | _, [] => []
  | 0, _ => []
  | fuel + 1, l => l.take 64 :: chunks64Go fuel (l.drop 64)

/-- See `chunks64Go`. -/
def chunks64 (l : List Nat) : List (List Nat) := chunks64Go l.length l

/-- Big-endian 32-bit words from bytes. -/
def beWords : List Nat → List Nat
  | b0 :: b1 :: b2 :: b3 :: rest => (b0 * 0x1000000 + b1 * 0x10000 + b2 * 0x100 + b3) :: beWords rest
  | _ => []

/-- One message-schedule extension step. -/
def scheduleStep (w : List Nat) (_i : Nat) : List Nat :=
  w ++ [w32 (ssig1 (w.getD (w.length - 2) 0) + w.getD (w.length - 7) 0 +
    ssig0 (w.getD (w.length - 15) 0) + w.getD (w.length - 16) 0)]

/-- Extend the 16 chunk words to the 64 schedule words. -/
def sha256Schedule (w16 : List Nat) : List Nat := (List.range 48).foldl scheduleStep w16

/-- One SHA-256 compression round. -/
def sha256Round (s : Sha256State) (kw : Nat × Nat) : Sha256State :=
  let t1 := w32 (s.h7 + bsig1 s.h4 + ch32 s.h4 s.h5 s.h6 + kw.1 + kw.2)
  let t2 := w32 (bsig0 s.h0 + maj32 s.h0 s.h1 s.h2)
  ⟨w32 (t1 + t2), s.h0, s.h1, s.h2, w32 (s.h3 + t1), s.h4, s.h5, s.h6⟩

/-- Compress one 64-byte chunk into the running state. -/
def sha256Chunk (s : Sha256State) (chunk : List Nat) : Sha256State :=
  let w := sha256Schedule (beWords chunk)
  let t := (sha256K.zip w).foldl sha256Round s
  ⟨w32 (s.h0 + t.h0), w32 (s.h1 + t.h1), w32 (s.h2 + t.h2), w32 (s.h3 + t.h3),
   w32 (s.h4 + t.h4), w32 (s.h5 + t.h5), w32 (s.h6 + t.h6), w32 (s.h7 + t.h7)⟩

/-- SHA-256 of a byte sequence, as the eight state words. -/
def sha256Words (msg : List Nat) : Sha256State :=
  (chunks64 (sha256Pad msg)).foldl sha256Chunk sha256Init

/-- Big-endian bytes of one state word (the `Uint8Array` view of the
digest buffer). -/
def wordBytes (w : Nat) : List Nat :=
  [w / 0x1000000 % 256, w / 0x10000 % 256, w / 0x100 % 256, w % 256]

/-- The 32 digest bytes. -/
def sha256Bytes (msg : List Nat) : List Nat :=
  let s := sha256Words msg
  ([s.h0, s.h1, s.h2, s.h3, s.h4, s.h5, s.h6, s.h7].map wordBytes).flatten

/-- One digest byte rendered as `b.toString(16).padStart(2, '0')`. -/
def hexByteChars (b : Nat) : List Char :=
  let ds := Nat.toDigits 16 b
  List.replicate (2 - ds.length) '0' ++ ds

/-- `hashPassword` from the dashboard: SHA-256 of the UTF-8 encoded
password, rendered as 64 lowercase hex characters. -/
def hashPassword (password : String) : String :=
  ⟨((sha256Bytes (stringUtf8 password)).map hexByteChars).flatten⟩

end Dashboard

/-- Every digest byte is below 256. -/
theorem sha256Bytes_lt (msg : List Nat) : ∀ b ∈ Dashboard.sha256Bytes msg, b < 256 := by
  intro b hb
  simp only [Dashboard.sha256Bytes, List.mem_flatten, List.mem_map] at hb
  obtain ⟨l, ⟨w, _, rfl⟩, hbl⟩ := hb
  simp only [Dashboard.wordBytes, List.mem_cons, List.not_mem_nil, or_false] at hbl
  rcases hbl with rfl | rfl | rfl | rfl <;> exact Nat.mod_lt _ (by norm_num)

set_option maxRecDepth 8000 in
/-- Hex digits of a byte below 256 fit in at most two characters. -/
theorem toDigits_le_two : ∀ b < 256, (Nat.toDigits 16 b).length ≤ 2 := by decide

/-- Each rendered digest byte is exactly two characters wide. -/
theorem hexByteChars_length (b : Nat) (hb : b < 256) :
    (Dashboard.hexByteChars b).length = 2 := by
  have h2 := toDigits_le_two b hb
  simp only [Dashboard.hexByteChars, List.length_append, List.length_replicate]
  omega

/-- The flattening of two-character blocks has length twice the block count. -/
theorem flatten_length_two {α : Type} :
    ∀ L : List (List α), (∀ l ∈ L, l.length = 2) → L.flatten.length = 2 * L.length
  | [], _ => rfl
  | l :: L, h => by
    simp only [List.flatten_cons, List.length_append, List.length_cons]
    rw [flatten_length_two L (fun x hx => h x (List.mem_cons_of_mem _ hx)),
      h l (List.mem_cons_self _ _)]
    ring

/-- The hex digest always has 64 characters (32 bytes, two hex digits
each), so it can never coincide with a plaintext of any other length. -/
theorem hashPassword_length (password : String) :
    (Dashboard.hashPassword password).length = 64 := by
  show (((Dashboard.sha256Bytes (Dashboard.stringUtf8 password)).map
    Dashboard.hexByteChars).flatten).length = 64
  rw [flatten_length_two]
  · rw [List.length_map]
    rfl
  · intro l hl
    obtain ⟨b, hb, rfl⟩ := List.mem_map.mp hl
    exact hexByteChars_length b (sha256Bytes_lt _ b hb)

namespace Dashboard

/-- The create-room dialog state fed into `createRoom`. -/
structure CreateRoomInput where
  name : String
  description : String
  password : String
  maxParticipants : Int
  deriving DecidableEq, Repr

/-- The row `createRoom` assembles and inserts into `chat_rooms` (`id`,
`room_code`, `is_active` and the timestamps are server-issued defaults not
part of the insert payload). -/
structure RoomInsertRow where
  name : String
  description : Option String
  created_by : String
  is_password_protected : Bool
  password_hash : Option String
  max_participants : Int
  deriving DecidableEq, Repr

/-- The only locally raised `createRoom` failure: blank room name. -/
inductive CreateError where
  | validation
  deriving DecidableEq, Repr

/-- The `roomData` object `createRoom` assembles: trimmed name, trimmed
description or null, hashed password or null, and the form capacity stored
unchecked. -/
def roomData (inp : CreateRoomInput) (creator : String) : RoomInsertRow :=
  { name := jsTrim inp.name,
    description := if jsTrim inp.description = "" then none
      else some (jsTrim inp.description),
    created_by := creator,
    is_password_protected := inp.password != "",
    password_hash := if inp.password = "" then none
      else some (hashPassword inp.password),
    max_participants := inp.maxParticipants }

/-- The dashboard `createRoom` handler: reject a blank name with a
validation error (no insert), otherwise insert `roomData`.  Returns the
call result together with the resulting `chat_rooms` table. -/
def createRoom (rooms : List RoomInsertRow) (inp : CreateRoomInput) (creator : String) :
    Except CreateError RoomInsertRow × List RoomInsertRow :=
  if jsTrim inp.name = "" then (.error .validation, rooms)
  else (.ok (roomData inp creator), rooms ++ [roomData inp creator])

end Dashboard

/-- C6: `createRoom` with an empty name fails with the validation error and
leaves the rooms table untouched, whatever the other fields hold. -/
theorem createRoom_empty_name (rooms : List Dashboard.RoomInsertRow)
    (description password : String) (maxParticipants : Int) (creator : String) :
    Dashboard.createRoom rooms
      { name := "", description := description, password := password,
        maxParticipants := maxParticipants } creator =
      (Except.error Dashboard.CreateError.validation, rooms) := rfl

/-- C7: a successfully created room stores `some (hashPassword pw)` — the
64-character hex SHA-256 digest, never the plaintext (witnessed here for
every password whose length differs from the digest's 64) — when a
non-empty password was supplied, and `none` when no password was supplied;
the inserted row is exactly the returned one. -/
theorem createRoom_password_hash (rooms : List Dashboard.RoomInsertRow)
    (inp : Dashboard.CreateRoomInput) (creator : String) (row : Dashboard.RoomInsertRow)
    (h : (Dashboard.createRoom rooms inp creator).1 = Except.ok row) :
    (inp.password ≠ "" →
      row.password_hash = some (Dashboard.hashPassword inp.password) ∧
      row.is_password_protected = true ∧
      (inp.password.length ≠ 64 → row.password_hash ≠ some inp.password)) ∧
    (inp.password = "" → row.password_hash = none) ∧
    (Dashboard.createRoom rooms inp creator).2 = rooms ++ [row] := by
  unfold Dashboard.createRoom at h ⊢
  by_cases hname : jsTrim inp.name = ""
  · rw [if_pos hname] at h
    exact absurd h (by simp)
  · rw [if_neg hname] at h ⊢
    simp only [Except.ok.injEq] at h
    subst h
    refine ⟨?_, ?_, rfl⟩
    · intro hpw
      refine ⟨?_, ?_, ?_⟩
      · simp only [Dashboard.roomData, if_neg hpw]
      · simp [Dashboard.roomData, hpw]
      · intro hlen heq
        simp only [Dashboard.roomData, if_neg hpw, Option.some.injEq] at heq
        exact hlen (by rw [← congrArg String.length heq, hashPassword_length])
    · intro hpw
      simp only [Dashboard.roomData, if_pos hpw]

/-- A concrete password-protected create-room input. -/
def pwInput : Dashboard.CreateRoomInput :=
  { name := "Ops", description := "", password := "secret", maxParticipants := 50 }

/-- C7 witness: creating a room with password "secret" succeeds and the
stored hash field is not the plaintext. -/
theorem createRoom_password_hash_witness :
    (Dashboard.createRoom [] pwInput "u1").1 =
      Except.ok (Dashboard.roomData pwInput "u1") ∧
    (Dashboard.roomData pwInput "u1").password_hash ≠ some "secret" :=
  ⟨rfl,
   ((createRoom_password_hash [] pwInput "u1" (Dashboard.roomData pwInput "u1") rfl).1
      (by decide)).2.2 (by decide)⟩

/-- C8: the claim as stated is false: typing "1" in the max-participants
field parses to 1 (`parseInt("1") || 50` keeps 1), and `createRoom`
persists a room of capacity 1 < 2 — the invariant capacity ≥ 2 is not
enforced anywhere in the code. -/
theorem createRoom_capacity_claim_false :
    Dashboard.maxParticipantsFromInput "1" = 1 ∧
    (Dashboard.createRoom []
      { name := "Design Sync", description := "", password := "",
        maxParticipants := Dashboard.maxParticipantsFromInput "1" } "u1").2.map
      (fun r => r.max_participants) = [1] ∧
    ¬((1 : Int) ≥ 2) := by
  decide

/-- C8 (amended): `createRoom` persists the form capacity unchanged, and
the form handler always yields a nonzero integer (`0` and `NaN` fall back
to 50) — but nothing enforces capacity ≥ 2, so 1 and negative values are
persisted as typed. -/
theorem createRoom_capacity (s : String) (rooms : List Dashboard.RoomInsertRow)
    (inp : Dashboard.CreateRoomInput) (creator : String) (row : Dashboard.RoomInsertRow)
    (h : (Dashboard.createRoom rooms inp creator).1 = Except.ok row) :
    Dashboard.maxParticipantsFromInput s ≠ 0 ∧
    row.max_participants = inp.maxParticipants := by
  constructor
  · unfold Dashboard.maxParticipantsFromInput
    rcases Dashboard.parseJsInt s with _ | n
    · decide
    · by_cases hn : n = 0
      · rw [hn]
        decide
      · simp only [if_neg hn]
        exact hn
  · unfold Dashboard.createRoom at h
    by_cases hname : jsTrim inp.name = ""
    · rw [if_pos hname] at h
      exact absurd h (by simp)
    · rw [if_neg hname] at h
      simp only [Except.ok.injEq] at h
      subst h
      rfl

/-- A concrete create-room input with capacity 1. -/
def capacityInput : Dashboard.CreateRoomInput :=
  { name := "n", description := "", password := "", maxParticipants := 1 }

/-- C8 amended-claim witness at concrete inputs. -/
theorem createRoom_capacity_witness :
    Dashboard.maxParticipantsFromInput "0" ≠ 0 ∧
    (Dashboard.roomData capacityInput "u1").max_participants = capacityInput.maxParticipants :=
  ⟨(createRoom_capacity "0" [] capacityInput "u1" (Dashboard.roomData capacityInput "u1") rfl).1,
   (createRoom_capacity "0" [] capacityInput "u1" (Dashboard.roomData capacityInput "u1") rfl).2⟩

namespace Chat

/-- Modelled from the spec: the row update the `room_participants` upsert
applies to an existing (room, user) row — reactivate it, leaving every
other row untouched.  The conflict target (the unique-(room, user)
constraint) lives in the database migrations, which are not part of these
sources; the spec fixes the behaviour as "Upsert an active membership row
for (room, user) — idempotent if already a member". -/
def updRow (roomId userId : String) (p : ParticipantRow) : ParticipantRow :=
  if p.room_id = roomId ∧ p.user_id = userId then { p with is_active := true } else p

/-- Modelled from the spec: the chat screen's `joinRoom`
(`supabase.from('room_participants').upsert({room_id, user_id, is_active: true})`):
update the pair's existing row to active if one exists, insert a fresh
active row otherwise (see `updRow` for what is missing from the sources). -/
def joinRoom (participants : List ParticipantRow) (roomId userId : String) :
    List ParticipantRow :=
  if participants.any (fun p => p.room_id = roomId ∧ p.user_id = userId) then
    participants.map (updRow roomId userId)
  else participants ++ [{ room_id := roomId, user_id := userId, is_active := true }]

end Chat

/-- Activation does not change which (room, user) pair a row belongs to. -/
theorem updRow_key (r u : String) (p : ParticipantRow) :
    ((Chat.updRow r u p).room_id = r ∧ (Chat.updRow r u p).user_id = u) ↔
      (p.room_id = r ∧ p.user_id = u) := by
  unfold Chat.updRow
  by_cases hk : p.room_id = r ∧ p.user_id = u
  · rw [if_pos hk]
  · rw [if_neg hk]

/-- Activating pair rows preserves whether the table has a pair row. -/
theorem any_map_updRow (r u : String) (l : List ParticipantRow) :
    ((l.map (Chat.updRow r u)).any (fun p => p.room_id = r ∧ p.user_id = u)) =
      (l.any (fun p => p.room_id = r ∧ p.user_id = u)) := by
  induction l with
  | nil => rfl
  | cons p l ih =>
    simp only [List.map_cons, List.any_cons, ih]
    congr 1
    exact decide_eq_decide.mpr (updRow_key r u p)

/-- With no pair row present, the activation pass is the identity. -/
theorem map_updRow_of_none (r u : String) (l : List ParticipantRow)
    (h : l.any (fun p => p.room_id = r ∧ p.user_id = u) = false) :
    l.map (Chat.updRow r u) = l := by
  induction l with
  | nil => rfl
  | cons p l ih =>
    simp only [List.any_cons, Bool.or_eq_false_iff, decide_eq_false_iff_not] at h
    simp only [List.map_cons, ih h.2]
    congr 1
    unfold Chat.updRow
    rw [if_neg h.1]

/-- Activating a row twice equals activating it once. -/
theorem updRow_updRow (r u : String) (p : ParticipantRow) :
    Chat.updRow r u (Chat.updRow r u p) = Chat.updRow r u p := by
  unfold Chat.updRow
  by_cases hk : p.room_id = r ∧ p.user_id = u
  · rw [if_pos hk]
    rw [if_pos (show (({ p with is_active := true } : ParticipantRow).room_id = r ∧
      ({ p with is_active := true } : ParticipantRow).user_id = u) from ⟨hk.1, hk.2⟩)]
  · rw [if_neg hk, if_neg hk]

/-- The activation pass over the table is idempotent. -/
theorem map_updRow_idem (r u : String) (l : List ParticipantRow) :
    (l.map (Chat.updRow r u)).map (Chat.updRow r u) = l.map (Chat.updRow r u) := by
  induction l with
  | nil => rfl
  | cons p l ih => simp only [List.map_cons, ih, updRow_updRow]

/-- After the activation pass, active pair rows are exactly the pair rows
of the original table. -/
theorem filter_active_map_updRow (r u : String) (l : List ParticipantRow) :
    ((l.map (Chat.updRow r u)).filter
      (fun p => p.room_id = r ∧ p.user_id = u ∧ p.is_active = true)).length =
    (l.filter (fun p => p.room_id = r ∧ p.user_id = u)).length := by
  induction l with
  | nil => rfl
  | cons p l ih =>
    simp only [List.map_cons, List.filter_cons]
    by_cases hk : p.room_id = r ∧ p.user_id = u
    · have h1 : Chat.updRow r u p = { p with is_active := true } := by
        unfold Chat.updRow
        rw [if_pos hk]
      rw [h1, if_pos (decide_eq_true ⟨hk.1, hk.2, rfl⟩), if_pos (decide_eq_true hk)]
      simp only [List.length_cons, ih]
    · have h1 : Chat.updRow r u p = p := by
        unfold Chat.updRow
        rw [if_neg hk]
      have h2 : ¬(p.room_id = r ∧ p.user_id = u ∧ p.is_active = true) :=
        fun hc => hk ⟨hc.1, hc.2.1⟩
      rw [h1, if_neg (by simpa using h2), if_neg (by simpa using hk)]
      exact ih

/-- A table whose `any` finds a pair row has a nonempty pair filter. -/
theorem filter_pos_of_any {α : Type} (pred : α → Bool) (l : List α)
    (h : l.any pred = true) : 0 < (l.filter pred).length := by
  obtain ⟨x, hx, hpx⟩ := List.any_eq_true.mp h
  exact List.length_pos.mpr (List.ne_nil_of_mem (List.mem_filter.mpr ⟨hx, hpx⟩))

/-- C4: starting from a table with at most one row for the (room, user)
pair, performing the membership upsert twice equals performing it once
(the second join updates rather than duplicates), and the resulting table
holds exactly one active membership row for the pair. -/
theorem joinRoom_upsert_idempotent (participants : List ParticipantRow)
    (roomId userId : String)
    (h : (participants.filter
      (fun p => p.room_id = roomId ∧ p.user_id = userId)).length ≤ 1) :
    Chat.joinRoom (Chat.joinRoom participants roomId userId) roomId userId =
      Chat.joinRoom participants roomId userId ∧
    ((Chat.joinRoom (Chat.joinRoom participants roomId userId) roomId userId).filter
      (fun p => p.room_id = roomId ∧ p.user_id = userId ∧ p.is_active = true)).length
      = 1 := by
  by_cases hany : participants.any
      (fun p => p.room_id = roomId ∧ p.user_id = userId) = true
  · have h1 : Chat.joinRoom participants roomId userId =
        participants.map (Chat.updRow roomId userId) := by
      unfold Chat.joinRoom
      rw [if_pos hany]
    have hany2 : (participants.map (Chat.updRow roomId userId)).any
        (fun p => p.room_id = roomId ∧ p.user_id = userId) = true := by
      rw [any_map_updRow]
      exact hany
    have htwice : Chat.joinRoom (participants.map (Chat.updRow roomId userId))
        roomId userId =
        (participants.map (Chat.updRow roomId userId)).map
          (Chat.updRow roomId userId) := by
      unfold Chat.joinRoom
      rw [if_pos hany2]
    have heq : Chat.joinRoom (Chat.joinRoom participants roomId userId) roomId userId =
        Chat.joinRoom participants roomId userId := by
      rw [h1, htwice, map_updRow_idem]
    refine ⟨heq, ?_⟩
    rw [heq, h1, filter_active_map_updRow]
    have hpos := filter_pos_of_any
      (fun p => decide (p.room_id = roomId ∧ p.user_id = userId)) participants hany
    omega
  · have hany' : participants.any
        (fun p => p.room_id = roomId ∧ p.user_id = userId) = false :=
      Bool.not_eq_true _ ▸ eq_false_of_ne_true hany
    have h1 : Chat.joinRoom participants roomId userId =
        participants ++ [{ room_id := roomId, user_id := userId, is_active := true }] := by
      unfold Chat.joinRoom
      rw [if_neg hany]
    have hany2 : (participants ++
        [({ room_id := roomId, user_id := userId, is_active := true } : ParticipantRow)]).any
        (fun p => p.room_id = roomId ∧ p.user_id = userId) = true := by
      rw [List.any_append]
      simp
    have htwice : Chat.joinRoom (participants ++
        [({ room_id := roomId, user_id := userId, is_active := true } : ParticipantRow)])
        roomId userId =
        (participants ++
          [({ room_id := roomId, user_id := userId, is_active := true } : ParticipantRow)]).map
          (Chat.updRow roomId userId) := by
      unfold Chat.joinRoom
      rw [if_pos hany2]
    have hmap : (participants ++
        [({ room_id := roomId, user_id := userId, is_active := true } : ParticipantRow)]).map
        (Chat.updRow roomId userId) =
        participants ++
          [({ room_id := roomId, user_id := userId, is_active := true } : ParticipantRow)] := by
      rw [List.map_append, map_updRow_of_none roomId userId participants hany']
      congr 1
      simp only [List.map_cons, List.map_nil]
      congr 1
      unfold Chat.updRow
      rw [if_pos ⟨rfl, rfl⟩]
    have heq : Chat.joinRoom (Chat.joinRoom participants roomId userId) roomId userId =
        Chat.joinRoom participants roomId userId := by
      rw [h1, htwice, hmap]
    refine ⟨heq, ?_⟩
    rw [heq, h1, List.filter_append]
    have hall := List.any_eq_false.mp hany'
    have hfl : participants.filter
        (fun p => p.room_id = roomId ∧ p.user_id = userId ∧ p.is_active = true) = [] := by
      rw [List.filter_eq_nil_iff]
      intro p hp
      have hnp := hall p hp
      simp only [decide_eq_true_eq] at hnp ⊢
      exact fun hc => hnp ⟨hc.1, hc.2.1⟩
    rw [hfl]
    simp

/-- C4 witness: joining an empty table twice leaves exactly one active row. -/
theorem joinRoom_upsert_idempotent_witness :
    Chat.joinRoom (Chat.joinRoom [] "r" "u") "r" "u" = Chat.joinRoom [] "r" "u" ∧
    ((Chat.joinRoom (Chat.joinRoom [] "r" "u") "r" "u").filter
      (fun p => p.room_id = "r" ∧ p.user_id = "u" ∧ p.is_active = true)).length = 1 :=
  joinRoom_upsert_idempotent [] "r" "u" (by decide)

namespace Chat

/-- The room fields held by the chat screen (its `Room` interface). -/
structure ChatRoom where
  id : String
  name : String
  room_code : String
  created_by : String
  max_participants : Int
  deriving DecidableEq, Repr

/-- A row inserted into `messages` by `sendMessage` (`created_at` and `id`
are server-assigned). -/
structure MessageInsertRow where
  room_id : String
  user_id : String
  content : String
  message_type : String
  deriving DecidableEq, Repr

/-- The chat-screen state touched by `sendMessage`: the draft input, the
in-memory transcript, the current room and user, and the persisted
`messages` table. -/
structure ChatState where
  newMessage : String
  messages : List EnrichedMessage
  room : Option ChatRoom
  currentUser : Option String
  messagesTable : List MessageInsertRow
  deriving DecidableEq, Repr

/-- `sendMessage`: early return when the trimmed draft is empty or
room/user are unset; otherwise insert the trimmed content tagged 'text'
and clear the draft only after the insert succeeded (`insertOk`); on an
insert error only a toast is raised — draft, transcript and table are left
exactly as they were. -/
def sendMessage (s : ChatState) (insertOk : Bool) : ChatState :=
  if jsTrim s.newMessage = "" then s
  else
    match s.room, s.currentUser with
    | some room, some uid =>
      if insertOk then
        { s with
          messagesTable := s.messagesTable ++
            [{ room_id := room.id, user_id := uid,
               content := jsTrim s.newMessage, message_type := "text" }],
          newMessage := "" }
      else s
    | _, _ => s

end Chat

/-- Trimming an all-whitespace draft yields the empty string. -/
theorem jsTrim_all_whitespace (s : String)
    (h : s.data.all isJsWhitespace = true) : jsTrim s = "" := by
  have hall := List.all_eq_true.mp h
  unfold jsTrim
  rw [List.dropWhile_eq_nil_iff.mpr (fun x hx => hall x hx)]
  rfl

/-- C5: a draft consisting only of whitespace (the empty string included)
never persists a message row, whatever the rest of the state and the
backend outcome. -/
theorem sendMessage_blank_no_insert (s : Chat.ChatState) (insertOk : Bool)
    (hblank : s.newMessage.data.all isJsWhitespace = true) :
    (Chat.sendMessage s insertOk).messagesTable = s.messagesTable := by
  unfold Chat.sendMessage
  rw [if_pos (jsTrim_all_whitespace s.newMessage hblank)]

/-- C5 witness: a concrete three-space draft inserts nothing even when the
backend would accept the insert. -/
theorem sendMessage_blank_no_insert_witness :
    ("   " : String).data.all isJsWhitespace = true ∧
    (Chat.sendMessage
      { newMessage := "   ", messages := [], room := none,
        currentUser := none, messagesTable := [] } true).messagesTable = [] :=
  ⟨by decide,
   sendMessage_blank_no_insert
     { newMessage := "   ", messages := [], room := none,
       currentUser := none, messagesTable := [] } true (by decide)⟩

/-- C10: when the insert fails, `sendMessage` leaves the whole state —
draft, transcript, table — unchanged; on success the transcript is still
untouched (the message arrives only via the subscription), the draft is
cleared, and the persisted content is the input with surrounding
whitespace trimmed. -/
theorem sendMessage_draft_and_trim (s : Chat.ChatState) (room : Chat.ChatRoom)
    (uid : String) (hroom : s.room = some room) (huser : s.currentUser = some uid)
    (hne : jsTrim s.newMessage ≠ "") :
    Chat.sendMessage s false = s ∧
    (Chat.sendMessage s true).messages = s.messages ∧
    (Chat.sendMessage s true).newMessage = "" ∧
    (Chat.sendMessage s true).messagesTable = s.messagesTable ++
      [{ room_id := room.id, user_id := uid, content := jsTrim s.newMessage,
         message_type := "text" }] := by
  unfold Chat.sendMessage
  simp only [if_neg hne, hroom, huser]
  exact ⟨rfl, rfl, rfl, rfl⟩

/-- A concrete chat room for the send witness. -/
def chatRoomW : Chat.ChatRoom :=
  { id := "r", name := "n", room_code := "AB12", created_by := "c",
    max_participants := 50 }

/-- C10 witness at a concrete state with draft " hi ". -/
theorem sendMessage_draft_and_trim_witness :
    Chat.sendMessage
      { newMessage := " hi ", messages := [], room := some chatRoomW,
        currentUser := some "u", messagesTable := [] } false =
      { newMessage := " hi ", messages := [], room := some chatRoomW,
        currentUser := some "u", messagesTable := [] } ∧
    (Chat.sendMessage
      { newMessage := " hi ", messages := [], room := some chatRoomW,
        currentUser := some "u", messagesTable := [] } true).messages = [] ∧
    (Chat.sendMessage
      { newMessage := " hi ", messages := [], room := some chatRoomW,
        currentUser := some "u", messagesTable := [] } true).newMessage = "" ∧
    (Chat.sendMessage
      { newMessage := " hi ", messages := [], room := some chatRoomW,
        currentUser := some "u", messagesTable := [] } true).messagesTable =
      [] ++ [{ room_id := chatRoomW.id, user_id := "u", content := jsTrim " hi ",
                message_type := "text" }] :=
  sendMessage_draft_and_trim
    { newMessage := " hi ", messages := [], room := some chatRoomW,
      currentUser := some "u", messagesTable := [] } chatRoomW "u" rfl rfl (by decide)

namespace AdminPanel

/-- A `verification_images` row (the columns the monitor's queries key,
order and limit on). -/
structure ImageRow where
  id : String
  user_id : String
  captured_at : Nat
  deriving DecidableEq, Repr

/-- A `verification_audio` row. -/
structure AudioRow where
  id : String
  user_id : String
  recorded_at : Nat
  deriving DecidableEq, Repr

/-- A `location_tracking` row. -/
structure LocationRow where
  id : String
  user_id : String
  recorded_at : Nat
  deriving DecidableEq, Repr

/-- The per-user review payload assembled by the admin monitor. -/
structure VerificationData where
  images : List ImageRow
  audio : List AudioRow
  locations : List LocationRow
  deriving DecidableEq, Repr

/-- Descending capture-time order (`order('captured_at', {ascending: false})`). -/
def capturedAtDesc (a b : ImageRow) : Prop := b.captured_at ≤ a.captured_at

instance : DecidableRel capturedAtDesc := fun a b => Nat.decLe b.captured_at a.captured_at

/-- Descending record-time order for audio rows. -/
def audioRecordedAtDesc (a b : AudioRow) : Prop := b.recorded_at ≤ a.recorded_at

instance : DecidableRel audioRecordedAtDesc := fun a b => Nat.decLe b.recorded_at a.recorded_at

/-- Descending record-time order for location rows. -/
def locationRecordedAtDesc (a b : LocationRow) : Prop := b.recorded_at ≤ a.recorded_at

instance : DecidableRel locationRecordedAtDesc := fun a b =>
  Nat.decLe b.recorded_at a.recorded_at

/-- `loadUserVerificationData`: three independent queries — the user's 20
most recent images, 20 most recent audio clips, 50 most recent locations.
Each query's `data` is `null` on failure and the code falls back to `[]`
for that category alone (`images || []`, ...), so a failing category
cannot affect the other two.  The `Bool` flags model each query's
success. -/
def loadUserVerificationData (imagesTable : List ImageRow) (audioTable : List AudioRow)
    (locationsTable : List LocationRow) (userId : String)
    (imgOk audOk locOk : Bool) : VerificationData :=
  { images := if imgOk then
      ((imagesTable.filter (fun r => r.user_id = userId)).insertionSort capturedAtDesc).take 20
    else [],
    audio := if audOk then
      ((audioTable.filter (fun r => r.user_id = userId)).insertionSort
        audioRecordedAtDesc).take 20
    else [],
    locations := if locOk then
      ((locationsTable.filter (fun r => r.user_id = userId)).insertionSort
        locationRecordedAtDesc).take 50
    else [] }

end AdminPanel

/-- C9: each capture category is independently limited (at most 20 images,
20 audio clips, 50 locations), a failed category yields the empty sequence
without touching the others, and each category's result never depends on
the other categories' outcomes. -/
theorem loadUserVerificationData_isolated (imagesTable : List AdminPanel.ImageRow)
    (audioTable : List AdminPanel.AudioRow) (locationsTable : List AdminPanel.LocationRow)
    (userId : String) (imgOk audOk locOk : Bool) :
    (AdminPanel.loadUserVerificationData imagesTable audioTable locationsTable userId
      imgOk audOk locOk).images.length ≤ 20 ∧
    (AdminPanel.loadUserVerificationData imagesTable audioTable locationsTable userId
      imgOk audOk locOk).audio.length ≤ 20 ∧
    (AdminPanel.loadUserVerificationData imagesTable audioTable locationsTable userId
      imgOk audOk locOk).locations.length ≤ 50 ∧
    (AdminPanel.loadUserVerificationData imagesTable audioTable locationsTable userId
      false audOk locOk).images = [] ∧
    (AdminPanel.loadUserVerificationData imagesTable audioTable locationsTable userId
      imgOk false locOk).audio = [] ∧
    (AdminPanel.loadUserVerificationData imagesTable audioTable locationsTable userId
      imgOk audOk false).locations = [] ∧
    (AdminPanel.loadUserVerificationData imagesTable audioTable locationsTable userId
      imgOk audOk locOk).images =
      (AdminPanel.loadUserVerificationData imagesTable audioTable locationsTable userId
        imgOk true true).images ∧
    (AdminPanel.loadUserVerificationData imagesTable audioTable locationsTable userId
      imgOk audOk locOk).audio =
      (AdminPanel.loadUserVerificationData imagesTable audioTable locationsTable userId
        true audOk true).audio ∧
    (AdminPanel.loadUserVerificationData imagesTable audioTable locationsTable userId
      imgOk audOk locOk).locations =
      (AdminPanel.loadUserVerificationData imagesTable audioTable locationsTable userId
        true true locOk).locations := by
  refine ⟨?_, ?_, ?_, rfl, rfl, rfl, rfl, rfl, rfl⟩
  · cases imgOk
    · exact Nat.zero_le _
    · exact List.length_take_le _ _
  · cases audOk
    · exact Nat.zero_le _
    · exact List.length_take_le _ _
  · cases locOk
    · exact Nat.zero_le _
    · exact List.length_take_le _ _
